import Mathlib

/-
Shallow embedding of the Fintech-POC repository (honeyse/Fintech-POC) and a
verification of its specification claims.

Source files embedded:
  * src/api_clients/financial_apis.py   (MockBankingAPI, CurrencyExchangeClient,
                                         AlphaVantageClient, APIResponse)
  * src/core/ai_engine.py               (TestCase, AITestEngine fallback paths)
  * src/core/rag_engine.py              (FinancialRAGEngine, FINANCIAL_DOMAIN_DOCS)
  * src/tests/test_runner.py            (AITestRunner)

Modelling conventions:
  * Python floats (account balances, amounts, exchange rates) are modelled as
    exact rationals (ℚ).  The arithmetic the claims are about (debit/credit,
    conservation of sums, cross rates) is exact decimal arithmetic in the
    source's data, so ℚ is the faithful idealisation; float formatting and
    rounding are modelled as rational rounding.
  * Wall-clock fields (`response_time`, `timestamp`) and the constant
    `headers` dictionary are elided from the embedded records: no claim and no
    piece of program logic reads them.
  * `random.randint(100000, 999999)` used for transaction identifiers is
    modelled by threading the drawn number as an explicit argument `rngTxnId`.
  * Python exceptions are modelled with `Except String`; the executor's
    try/except boundary becomes an explicit total function on `Except` values.
  * `str.lower` / `str.split()` are modelled for ASCII text (the repository's
    documents, names and keywords are all ASCII).
-/

namespace Fintech

/-! ### String helpers (Python `str.lower`, `in`, `str.split`) -/

/-- ASCII model of Python `str.lower()`. -/
def strLower (s : String) : String := String.mk (s.data.map Char.toLower)

/-- Characters on which Python `str.split()` (no argument) splits: the ASCII
whitespace class space, tab, newline, carriage return, vertical tab, form feed. -/
def pyIsSpace (c : Char) : Bool :=
  c = ' ' || c = '\t' || c = '\n' || c = '\r' || c = Char.ofNat 11 || c = Char.ofNat 12

/-- Worker for `pySplit`: `cur` holds the (reversed) current word. -/
def pySplitAux : List Char → List Char → List String
  | [], [] => []
  | [], cur => [String.mk cur.reverse]
  | c :: rest, cur =>
    if pyIsSpace c then
      match cur with
      | [] => pySplitAux rest []
      | _ => String.mk cur.reverse :: pySplitAux rest []
    else pySplitAux rest (c :: cur)

/-- Python `s.split()`: split on runs of whitespace, dropping empty pieces. -/
def pySplit (s : String) : List String := pySplitAux s.data []

/-- Does `needle` occur as a contiguous sublist of the second argument? -/
def sublistOccurs (needle : List Char) : List Char → Bool
  | [] => needle.isEmpty
  | c :: rest => needle.isPrefixOf (c :: rest) || sublistOccurs needle rest

/-- Python `needle in hay` on strings: substring occurrence. -/
def strContains (hay needle : String) : Bool := sublistOccurs needle.data hay.data

/-! ### `financial_apis.py`: APIResponse and MockBankingAPI -/

/-- The `APIResponse` envelope (financial_apis.py lines 10-17), parameterised by
the shape of the `data` payload.  `headers` and `response_time` are elided. -/
structure APIResponse (α : Type) where
  statusCode : Nat
  data : α
  success : Bool
deriving DecidableEq

/-- One mock bank account (financial_apis.py lines 66-83). -/
structure Account where
  accountId : String
  accountNumber : String
  accountType : String
  balance : ℚ
  currency : String
  status : String
deriving DecidableEq

/-- One transaction log entry (financial_apis.py lines 154-161); the wall-clock
`timestamp` field is elided. -/
structure BankTransaction where
  transactionId : String
  fromAccount : String
  toAccount : String
  amount : ℚ
  status : String
deriving DecidableEq

/-- The mutable state of a `MockBankingAPI` instance: the account list and the
append-only transaction log (financial_apis.py lines 59-62). -/
structure Bank where
  accounts : List Account
  transactions : List BankTransaction
deriving DecidableEq

/-- The first mock account (financial_apis.py lines 67-74). -/
def mockAcc1 : Account :=
  { accountId := "ACC001", accountNumber := "1234567890", accountType := "checking",
    balance := 5000, currency := "USD", status := "active" }

/-- The second mock account (financial_apis.py lines 75-82). -/
def mockAcc2 : Account :=
  { accountId := "ACC002", accountNumber := "2345678901", accountType := "savings",
    balance := 15000, currency := "USD", status := "active" }

/-- `_generate_mock_accounts` (financial_apis.py lines 64-83). -/
def mockAccounts : List Account := [mockAcc1, mockAcc2]

/-- A freshly constructed `MockBankingAPI()`. -/
def Bank.init : Bank := { accounts := mockAccounts, transactions := [] }

/-- `next((acc for acc in self.accounts if acc["account_id"] == account_id), None)`. -/
def findAccount (accounts : List Account) (accountId : String) : Option Account :=
  accounts.find? (fun acc => acc.accountId = accountId)

/-- Balance of an account in a bank state, when the account exists. -/
def balanceOf (b : Bank) (accountId : String) : Option ℚ :=
  (findAccount b.accounts accountId).map (fun acc => acc.balance)

/-- Sum of all account balances in a store. -/
def sumBalances (accounts : List Account) : ℚ :=
  (accounts.map (fun acc => acc.balance)).sum

/-- Payload of `get_account_balance` responses. -/
inductive BalancePayload
  | err (msg : String)
  | bal (accountId : String) (balance : ℚ) (currency : String)
deriving DecidableEq

/-- `MockBankingAPI.get_account_balance` (financial_apis.py lines 85-111). -/
def getAccountBalance (b : Bank) (accountId : String) : APIResponse BalancePayload :=
  match findAccount b.accounts accountId with
  | some account =>
    { statusCode := 200,
      data := .bal accountId account.balance account.currency,
      success := true }
  | none =>
    { statusCode := 404, data := .err "Account not found", success := false }

/-- In-place mutation `acc["balance"] += delta` of the first account in the
list whose id matches (Python mutates the dict object found by `next`). -/
def creditFirst (accounts : List Account) (accountId : String) (delta : ℚ) : List Account :=
  match accounts with
  | [] => []
  | acc :: rest =>
    if acc.accountId = accountId then { acc with balance := acc.balance + delta } :: rest
    else acc :: creditFirst rest accountId delta

/-- Payload of `transfer_funds` responses. -/
inductive TransferPayload
  | err (msg : String)
  | txn (t : BankTransaction)
deriving DecidableEq

/-- Result of a call to `transfer_funds`: the response together with the
post-call state of the banking store. -/
structure TransferResult where
  resp : APIResponse TransferPayload
  state : Bank
deriving DecidableEq

/-- `MockBankingAPI.transfer_funds` (financial_apis.py lines 113-171).
`rngTxnId` is the number drawn by `random.randint(100000, 999999)`. -/
def transferFunds (b : Bank) (fromAccount toAccount : String) (amount : ℚ)
    (rngTxnId : Nat) : TransferResult :=
  match findAccount b.accounts fromAccount with
  | none =>
    { resp := { statusCode := 404, data := .err "Source account not found", success := false },
      state := b }
  | some fromAcc =>
    match findAccount b.accounts toAccount with
    | none =>
      { resp := { statusCode := 404, data := .err "Destination account not found",
                  success := false },
        state := b }
    | some _ =>
      if fromAcc.balance < amount then
        { resp := { statusCode := 400, data := .err "Insufficient funds", success := false },
          state := b }
      else
        let t : BankTransaction :=
          { transactionId := "TXN" ++ toString rngTxnId,
            fromAccount := fromAccount, toAccount := toAccount,
            amount := amount, status := "completed" }
        { resp := { statusCode := 200, data := .txn t, success := true },
          state := { accounts := creditFirst (creditFirst b.accounts fromAccount (-amount))
                                  toAccount amount,
                     transactions := b.transactions ++ [t] } }

/-- Python slice `l[-limit:]` for a non-negative `limit`: the last `limit`
elements, except that `limit = 0` gives `l[0:] = l`, the whole list. -/
def pySliceLast {α : Type} (limit : Nat) (l : List α) : List α :=
  if limit = 0 then l else l.drop (l.length - limit)

/-- Payload of `get_transaction_history` responses. -/
structure HistoryPayload where
  accountId : String
  transactions : List BankTransaction
  totalCount : Nat
deriving DecidableEq

/-- The `account_transactions` comprehension of `get_transaction_history`
(financial_apis.py lines 177-180): the transactions touching the account as
source or destination, in insertion order. -/
def matchingTxns (b : Bank) (accountId : String) : List BankTransaction :=
  b.transactions.filter (fun t => t.fromAccount = accountId || t.toAccount = accountId)

/-- `MockBankingAPI.get_transaction_history` (financial_apis.py lines 173-192). -/
def getTransactionHistory (b : Bank) (accountId : String) (limit : Nat) :
    APIResponse HistoryPayload :=
  let accountTransactions := matchingTxns b accountId
  { statusCode := 200,
    data := { accountId := accountId,
              transactions := pySliceLast limit accountTransactions,
              totalCount := accountTransactions.length },
    success := true }

/-! ### `financial_apis.py`: CurrencyExchangeClient -/

/-- The fixed in-memory rate table `self.mock_rates` (financial_apis.py
lines 200-206), as an association list. -/
def mockRates : List (String × ℚ) :=
  [("USD", 1), ("EUR", 85/100), ("GBP", 73/100), ("JPY", 110), ("CAD", 125/100)]

/-- Dictionary membership / lookup in the rate table. -/
def lookupRate (currency : String) : Option ℚ :=
  (mockRates.find? (fun p => p.1 = currency)).map Prod.snd

/-- Round a rational to the nearest integer, ties to even (Python `round`). -/
def roundHalfEven (q : ℚ) : ℤ :=
  let f := ⌊q⌋
  let frac := q - f
  if frac < 1/2 then f
  else if 1/2 < frac then f + 1
  else if f % 2 = 0 then f else f + 1

/-- Python `round(x, 4)` on the exact-rational model of the rate arithmetic. -/
def pyRound4 (q : ℚ) : ℚ := (roundHalfEven (q * 10000) : ℚ) / 10000

/-- Payload of `get_exchange_rate` responses. -/
inductive RatePayload
  | err (msg : String)
  | rate (src dst : String) (value : ℚ)
deriving DecidableEq

/-- `CurrencyExchangeClient.get_exchange_rate` (financial_apis.py lines 208-237). -/
def getExchangeRate (fromCurrency toCurrency : String) : APIResponse RatePayload :=
  match lookupRate fromCurrency, lookupRate toCurrency with
  | some fromRate, some toRate =>
    { statusCode := 200,
      data := .rate fromCurrency toCurrency (pyRound4 (toRate / fromRate)),
      success := true }
  | _, _ =>
    { statusCode := 400, data := .err "Unsupported currency", success := false }

/-! ### `ai_engine.py`: TestCase and the deterministic fallback paths

The fallback paths (`_generate_mock_test_cases`, `_generate_mock_analysis`)
are the code exercised when no OpenAI provider is available; they are pure. -/

/-- An `api_spec` dictionary, restricted to the two keys the program reads
(`"name"` and `"type"`, both via `.get` with a default). -/
structure ApiSpec where
  name : Option String
  type : Option String
deriving DecidableEq

/-- A value stored in a `test_data` dictionary: the source only ever stores
and reads strings and numbers. -/
inductive PyVal
  | str (s : String)
  | num (q : ℚ)
deriving DecidableEq

/-- A `test_data` dictionary as an association list. -/
def TestData : Type := List (String × PyVal)

instance : DecidableEq TestData := by
  unfold TestData
  infer_instance

/-- `d.get(key)`: first binding of `key`, if any. -/
def dictGet (d : TestData) (key : String) : Option PyVal :=
  (d.find? (fun p => p.1 = key)).map Prod.snd

/-- The `TestCase` record (ai_engine.py lines 17-28). -/
structure TestCase where
  name : String
  description : String
  testType : String
  priority : String
  steps : List String
  expectedResult : String
  apiEndpoint : Option String
  testData : Option TestData
deriving DecidableEq

/-- `AITestEngine._generate_mock_test_cases` (ai_engine.py lines 135-173).
The source also reads `api_spec.get("type", "unknown")` into a local that is
never used; it is dropped here.  The embedded generator is a pure function of
`apiSpec`, so invoking it twice on the same spec gives equal results by
definitional equality. -/
def generateMockTestCases (apiSpec : ApiSpec) : List TestCase :=
  let apiName := apiSpec.name.getD "Unknown API"
  [ { name := apiName ++ " Happy Path Test",
      description := "Test successful operation of " ++ apiName,
      testType := "functional", priority := "high",
      steps := ["Send valid request", "Verify response"],
      expectedResult := "Successful response with expected data",
      apiEndpoint := some "/api/test",
      testData := some [("test", .str "data")] },
    { name := apiName ++ " Error Handling Test",
      description := "Test error handling for " ++ apiName,
      testType := "functional", priority := "medium",
      steps := ["Send invalid request", "Verify error response"],
      expectedResult := "Proper error message returned",
      apiEndpoint := some "/api/test",
      testData := some [("invalid", .str "data")] },
    { name := apiName ++ " Security Test",
      description := "Test security of " ++ apiName,
      testType := "security", priority := "high",
      steps := ["Send malicious payload", "Verify rejection"],
      expectedResult := "Request blocked or sanitized",
      apiEndpoint := some "/api/test",
      testData := some [("malicious", .str "payload")] } ]

/-- One element of the `results` list fed to `analyze_test_results`,
restricted to the only key the fallback analysis reads: `r.get("status")`. -/
structure ResultDict where
  status : Option String
deriving DecidableEq

/-- The record produced by `_generate_mock_analysis`. -/
structure MockAnalysis where
  overallHealth : String
  successRate : String
  totalTests : Nat
  passedTests : Nat
  failedTests : Nat
  recommendations : List String
deriving DecidableEq

/-- Python `f"{(passed/total*100):.1f}%"` modelled on exact rationals:
`passed*100/total` rounded to the nearest tenth (the float computation agrees
with the exact-rational rounding away from representation-noise ties). -/
def fmtPct (passed total : Nat) : String :=
  let tenths := (2000 * passed + total) / (2 * total)
  toString (tenths / 10) ++ "." ++ toString (tenths % 10) ++ "%"

/-- `AITestEngine._generate_mock_analysis` (ai_engine.py lines 175-192). -/
def generateMockAnalysis (results : List ResultDict) : MockAnalysis :=
  let totalTests := results.length
  let passedTests := (results.filter (fun r => r.status = some "passed")).length
  let failedTests := totalTests - passedTests
  { overallHealth := if passedTests > failedTests then "Good" else "Needs Attention",
    successRate := if totalTests > 0 then fmtPct passedTests totalTests else "0%",
    totalTests := totalTests,
    passedTests := passedTests,
    failedTests := failedTests,
    recommendations :=
      [ "Review failed tests for patterns",
        "Add more edge case testing",
        "Consider load testing for performance validation" ] }

/-! ### `rag_engine.py`: knowledge lookup -/

/-- The fixed keyword set of `_find_relevant_knowledge` (rag_engine.py line 120). -/
def ragKeywords : List String :=
  ["pci", "aml", "gdpr", "transaction", "compliance", "security"]

/-- `FINANCIAL_DOMAIN_DOCS` (rag_engine.py lines 127-182): the six compliance
documents, transcribed with their triple-quoted-string whitespace. -/
def financialDomainDocs : List String :=
  [ "\n    PCI DSS Compliance Testing Requirements:\n    - All credit card data must be encrypted in transit and at rest\n    - Access to cardholder data must be restricted and logged\n    - Regular vulnerability scans must be performed\n    - Strong access control measures must be implemented\n    - Cardholder data must not be stored unnecessarily\n    - Network security testing must be performed regularly\n    ",
    "\n    Anti-Money Laundering (AML) Testing:\n    - Transaction monitoring for suspicious patterns\n    - Customer due diligence verification\n    - Sanctions screening for all parties\n    - Reporting of suspicious activities within required timeframes\n    - Know Your Customer (KYC) procedures must be tested\n    - Large transaction reporting thresholds must be validated\n    ",
    "\n    Financial Transaction Integrity:\n    - All transactions must have proper authorization\n    - Transaction amounts must be validated against limits\n    - Duplicate transaction detection and prevention\n    - Audit trails must be maintained for all transactions\n    - Transaction reversal procedures must be tested\n    - Multi-factor authentication for high-value transactions\n    ",
    "\n    GDPR Data Privacy Requirements:\n    - Personal financial data must be protected\n    - Users must have right to data portability\n    - Data retention policies must be enforced\n    - Consent management for data processing\n    - Right to be forgotten must be implemented\n    - Data breach notification procedures must be tested\n    ",
    "\n    SOX Financial Reporting Compliance:\n    - Internal controls over financial reporting must be tested\n    - Accuracy of financial data must be validated\n    - Segregation of duties must be enforced\n    - Management assertions must be testable\n    - IT general controls must be evaluated\n    - Change management processes must be validated\n    ",
    "\n    Banking Security Best Practices:\n    - Multi-factor authentication for all access\n    - Session timeout and management\n    - Secure communication protocols (TLS 1.3+)\n    - Input validation and sanitization\n    - Rate limiting and DDoS protection\n    - Fraud detection and prevention systems\n    " ]

/-- The loop body condition of `_find_relevant_knowledge` (rag_engine.py
lines 119-121): the document contains one of the fixed keywords
(case-insensitively) and contains some whitespace-delimited word of the
lowercased query. -/
def relevantDoc (queryLower doc : String) : Bool :=
  ragKeywords.any (fun kw => strContains (strLower doc) kw) &&
  (pySplit queryLower).any (fun w => strContains (strLower doc) w)

/-- The accumulation loop of `_find_relevant_knowledge` (rag_engine.py
lines 117-122): `relevant` is the accumulator list being appended to. -/
def findRelevantLoop (queryLower : String) (relevant : List String) :
    List String → List String
  | [] => relevant
  | doc :: rest =>
    if relevantDoc queryLower doc then findRelevantLoop queryLower (relevant ++ [doc]) rest
    else findRelevantLoop queryLower relevant rest

/-- `FinancialRAGEngine._find_relevant_knowledge` (rag_engine.py lines 112-124),
over a knowledge base `kb` (which is `FINANCIAL_DOMAIN_DOCS` in every
constructed engine). -/
def findRelevantKnowledge (kb : List String) (query : String) : List String :=
  let relevant := findRelevantLoop (strLower query) [] kb
  if relevant.isEmpty then kb.take 2 else relevant

/-! ### `test_runner.py`: the executor and the aggregator -/

/-- Outcome of the single outbound `requests.get` in
`AlphaVantageClient.get_stock_price`: either an HTTP status code or a raised
exception (network failure), which the client catches itself. -/
inductive NetOutcome
  | ok (statusCode : Nat)
  | exn (msg : String)
deriving DecidableEq

/-- Payload of `get_stock_price` responses: the parsed JSON body (opaque to
every caller) or the caught exception message. -/
inductive StockPayload
  | body
  | err (msg : String)
deriving DecidableEq

/-- `AlphaVantageClient.get_stock_price` (financial_apis.py lines 26-54):
wraps the network outcome, catching any exception into a 500 response. -/
def getStockPrice (net : NetOutcome) : APIResponse StockPayload :=
  match net with
  | .ok code => { statusCode := code, data := .body, success := code == 200 }
  | .exn e => { statusCode := 500, data := .err e, success := false }

/-- `test_data.get(key, default)` for a string-valued key, guarded by the
truthiness test `if test_case.test_data else default` at each use site.  A
`none`/empty dictionary or a missing key yields the default.  (A numeric value
under a string key would flow through untyped in Python; no execution reached
by the claims stores one.) -/
def tdGetStr (td : Option TestData) (key dflt : String) : String :=
  match td with
  | none => dflt
  | some d =>
    match dictGet d key with
    | some (.str s) => s
    | _ => dflt

/-- `test_data.get(key, default)` for a numeric key, same conventions. -/
def tdGetNum (td : Option TestData) (key : String) (dflt : ℚ) : ℚ :=
  match td with
  | none => dflt
  | some d =>
    match dictGet d key with
    | some (.num q) => q
    | _ => dflt

/-- The `{"status": ..., "message": ...}` dictionaries produced by the
per-client test helpers (`response_time` elided). -/
structure InnerResult where
  status : String
  message : String
deriving DecidableEq

/-- `AITestRunner._test_stock_api` (test_runner.py lines 111-123). -/
def testStockApi (net : NetOutcome) (tc : TestCase) : InnerResult :=
  if strContains (strLower tc.name) "get_stock_price" then
    let _symbol := tdGetStr tc.testData "symbol" "AAPL"
    let response := getStockPrice net
    { status := if response.success then "passed" else "failed",
      message := "Stock price API response: " ++ toString response.statusCode }
  else { status := "skipped", message := "Test not implemented" }

/-- `AITestRunner._test_banking_api` (test_runner.py lines 125-150). -/
def testBankingApi (b : Bank) (tc : TestCase) (rngTxnId : Nat) : InnerResult :=
  if strContains (strLower tc.name) "balance" then
    let accountId := tdGetStr tc.testData "account_id" "ACC001"
    let response := getAccountBalance b accountId
    { status := if response.success then "passed" else "failed",
      message := "Balance API response: " ++ toString response.statusCode }
  else if strContains (strLower tc.name) "transfer" then
    let fromAcc := tdGetStr tc.testData "from_account" "ACC001"
    let toAcc := tdGetStr tc.testData "to_account" "ACC002"
    let amount := tdGetNum tc.testData "amount" 100
    let r := transferFunds b fromAcc toAcc amount rngTxnId
    { status := if r.resp.success then "passed" else "failed",
      message := "Transfer API response: " ++ toString r.resp.statusCode }
  else { status := "skipped", message := "Test not implemented" }

/-- `AITestRunner._test_currency_api` (test_runner.py lines 152-166). -/
def testCurrencyApi (tc : TestCase) : InnerResult :=
  if strContains (strLower tc.name) "exchange_rate" then
    let fromCurr := tdGetStr tc.testData "from_currency" "USD"
    let toCurr := tdGetStr tc.testData "to_currency" "EUR"
    let response := getExchangeRate fromCurr toCurr
    { status := if response.success then "passed" else "failed",
      message := "Exchange rate API response: " ++ toString response.statusCode }
  else { status := "skipped", message := "Test not implemented" }

/-- The result record `_execute_test_case` returns (test_runner.py lines
90-99 and 102-109).  `response_time`/`timestamp` are elided; the exception
branch builds a record without an `api_endpoint` key, modelled as `none`. -/
structure TestResultRec where
  testName : String
  testType : String
  priority : String
  apiEndpoint : Option String
  status : String
  message : String
deriving DecidableEq

/-- The body of the `try` block of `_execute_test_case` (test_runner.py lines
71-99): dispatch on `api_spec.get("type", "unknown")`, then build the result
record.  Exceptions are modelled by `Except String`; every arm of the embedded
dispatch is exception-free (`Except.ok`), which reflects that the mock-client
helpers are total. -/
def dispatchTestCase (net : NetOutcome) (rngTxnId : Nat) (tc : TestCase)
    (spec : ApiSpec) : Except String InnerResult :=
  let apiType := spec.type.getD "unknown"
  if apiType = "stock_api" then .ok (testStockApi net tc)
  else if apiType = "banking_api" then .ok (testBankingApi Bank.init tc rngTxnId)
  else if apiType = "currency_api" then .ok (testCurrencyApi tc)
  else .ok { status := "skipped", message := "Unknown API type: " ++ apiType }

/-- The `try`/`except` boundary of `_execute_test_case` (test_runner.py lines
69-109): a normal result is wrapped into the full record; a caught exception
becomes a record with status `"error"` carrying the exception's message. -/
def catchBoundary (tc : TestCase) (body : Except String InnerResult) : TestResultRec :=
  match body with
  | .ok r =>
    { testName := tc.name, testType := tc.testType, priority := tc.priority,
      apiEndpoint := tc.apiEndpoint, status := r.status, message := r.message }
  | .error e =>
    { testName := tc.name, testType := tc.testType, priority := tc.priority,
      apiEndpoint := none, status := "error", message := e }

/-- `AITestRunner._execute_test_case` as a whole: a total function. -/
def executeTestCase (net : NetOutcome) (rngTxnId : Nat) (tc : TestCase)
    (spec : ApiSpec) : TestResultRec :=
  catchBoundary tc (dispatchTestCase net rngTxnId tc spec)

/-- The report record returned by `run_ai_generated_tests` (test_runner.py
lines 60-67); the wall-clock `timestamp` field is elided. -/
structure Report where
  testResults : List TestResultRec
  aiAnalysis : MockAnalysis
  totalTests : Nat
  passedTests : Nat
  failedTests : Nat
deriving DecidableEq

/-- View of an executor result record as an input to the analysis step (the
Python passes the same dictionaries along; the analysis reads only `status`). -/
def toResultDict (r : TestResultRec) : ResultDict := { status := some r.status }

/-- The aggregation step of `run_ai_generated_tests` (test_runner.py lines
58-67): the analysis call and the count fields over `all_results`. -/
def buildReport (allResults : List TestResultRec) : Report :=
  { testResults := allResults,
    aiAnalysis := generateMockAnalysis (allResults.map toResultDict),
    totalTests := allResults.length,
    passedTests := (allResults.filter (fun r => r.status = "passed")).length,
    failedTests := (allResults.filter (fun r => r.status = "failed")).length }

/-- `AITestRunner.run_ai_generated_tests` (test_runner.py lines 33-67) on the
fallback generation path: for each spec, generate the mock test cases and
execute each against the spec, then aggregate. -/
def runAiGeneratedTests (net : NetOutcome) (rngTxnId : Nat)
    (apiSpecs : List ApiSpec) : Report :=
  buildReport ((apiSpecs.map (fun spec =>
    (generateMockTestCases spec).map (fun tc => executeTestCase net rngTxnId tc spec))).flatten)

/-- The test case a banking-transfer scenario with `test_data=None` gives the
executor (claim C4's concrete input). -/
def transferTcNone : TestCase :=
  { name := "Banking API transfer flow", description := "", testType := "functional",
    priority := "high", steps := [], expectedResult := "", apiEndpoint := none,
    testData := none }

/-- The banking entry of `SAMPLE_API_SPECS` (test_runner.py lines 194-200),
restricted to the keys the program reads. -/
def bankingSpec : ApiSpec := { name := some "Banking API", type := some "banking_api" }

/-! ### Helper lemmas about the banking store -/

theorem creditFirst_id_eq (acc : Account) (rest : List Account) (accountId : String)
    (δ : ℚ) (h : acc.accountId = accountId) :
    creditFirst (acc :: rest) accountId δ = { acc with balance := acc.balance + δ } :: rest := by
  simp [creditFirst, h]

theorem creditFirst_id_ne (acc : Account) (rest : List Account) (accountId : String)
    (δ : ℚ) (h : ¬ acc.accountId = accountId) :
    creditFirst (acc :: rest) accountId δ = acc :: creditFirst rest accountId δ := by
  simp [creditFirst, h]

theorem findAccount_cons_eq (acc : Account) (rest : List Account) (accountId : String)
    (h : acc.accountId = accountId) :
    findAccount (acc :: rest) accountId = some acc := by
  simp [findAccount, List.find?_cons_of_pos, h]

theorem findAccount_cons_ne (acc : Account) (rest : List Account) (accountId : String)
    (h : ¬ acc.accountId = accountId) :
    findAccount (acc :: rest) accountId = findAccount rest accountId := by
  simp [findAccount, List.find?_cons_of_neg, h]

/-- Crediting account `idB` does not change what a lookup of a different
account `idA` finds. -/
theorem findAccount_creditFirst_ne (accounts : List Account) (idA idB : String) (δ : ℚ)
    (h : idA ≠ idB) :
    findAccount (creditFirst accounts idB δ) idA = findAccount accounts idA := by
  induction accounts with
  | nil => rfl
  | cons acc rest ih =>
    by_cases hB : acc.accountId = idB
    · have hA : ¬ acc.accountId = idA := fun hA => h (hA ▸ hB)
      rw [creditFirst_id_eq acc rest idB δ hB,
          findAccount_cons_ne { acc with balance := acc.balance + δ } rest idA hA,
          findAccount_cons_ne acc rest idA hA]
    · rw [creditFirst_id_ne acc rest idB δ hB]
      by_cases hA : acc.accountId = idA
      · rw [findAccount_cons_eq _ _ _ hA, findAccount_cons_eq _ _ _ hA]
      · rw [findAccount_cons_ne _ _ _ hA, findAccount_cons_ne _ _ _ hA, ih]

/-- Looking up the credited account sees exactly the credited balance. -/
theorem findAccount_creditFirst_self (accounts : List Account) (accountId : String) (δ : ℚ) :
    findAccount (creditFirst accounts accountId δ) accountId =
      (findAccount accounts accountId).map (fun acc => { acc with balance := acc.balance + δ }) := by
  induction accounts with
  | nil => rfl
  | cons acc rest ih =>
    by_cases h : acc.accountId = accountId
    · rw [creditFirst_id_eq acc rest accountId δ h,
          findAccount_cons_eq { acc with balance := acc.balance + δ } rest accountId h,
          findAccount_cons_eq acc rest accountId h]
      rfl
    · rw [creditFirst_id_ne acc rest accountId δ h,
          findAccount_cons_ne acc (creditFirst rest accountId δ) accountId h,
          findAccount_cons_ne acc rest accountId h, ih]

theorem sumBalances_cons (acc : Account) (rest : List Account) :
    sumBalances (acc :: rest) = acc.balance + sumBalances rest := by
  simp [sumBalances]

/-- Crediting an existing account changes the total balance by exactly the
credited amount. -/
theorem sumBalances_creditFirst (accounts : List Account) (accountId : String) (δ : ℚ)
    (h : (findAccount accounts accountId).isSome) :
    sumBalances (creditFirst accounts accountId δ) = sumBalances accounts + δ := by
  induction accounts with
  | nil => simp [findAccount] at h
  | cons acc rest ih =>
    by_cases hid : acc.accountId = accountId
    · rw [creditFirst_id_eq acc rest accountId δ hid, sumBalances_cons, sumBalances_cons]
      show acc.balance + δ + sumBalances rest = acc.balance + sumBalances rest + δ
      ring
    · rw [findAccount_cons_ne _ _ _ hid] at h
      rw [creditFirst_id_ne acc rest accountId δ hid, sumBalances_cons, sumBalances_cons, ih h]
      ring

/-- The success path of `transfer_funds`: with both accounts present, distinct,
and sufficient balance, the call produces the 200 response and the
debit/credit/append state update. -/
theorem transferFunds_success_spec (b : Bank) (A B : String) (x : ℚ) (tid : Nat)
    (accA accB : Account)
    (hA : findAccount b.accounts A = some accA)
    (hB : findAccount b.accounts B = some accB)
    (hbal : x ≤ accA.balance) :
    transferFunds b A B x tid =
      { resp := { statusCode := 200,
                  data := .txn { transactionId := "TXN" ++ toString tid, fromAccount := A,
                                 toAccount := B, amount := x, status := "completed" },
                  success := true },
        state := { accounts := creditFirst (creditFirst b.accounts A (-x)) B x,
                   transactions := b.transactions ++
                     [{ transactionId := "TXN" ++ toString tid, fromAccount := A,
                        toAccount := B, amount := x, status := "completed" }] } } := by
  simp only [transferFunds, hA, hB]
  rw [if_neg (not_lt.mpr hbal)]

/-- On the success path, the response is a 200 success and the two involved
balances are debited and credited by exactly the transfer amount. -/
theorem transferFunds_balances (b : Bank) (A B : String) (x : ℚ) (tid : Nat)
    (accA accB : Account) (hAB : A ≠ B)
    (hA : findAccount b.accounts A = some accA)
    (hB : findAccount b.accounts B = some accB)
    (hx : x ≤ accA.balance) :
    (transferFunds b A B x tid).resp.statusCode = 200 ∧
    (transferFunds b A B x tid).resp.success = true ∧
    balanceOf (transferFunds b A B x tid).state A = some (accA.balance - x) ∧
    balanceOf (transferFunds b A B x tid).state B = some (accB.balance + x) := by
  rw [transferFunds_success_spec b A B x tid accA accB hA hB hx]
  refine ⟨rfl, rfl, ?_, ?_⟩
  · show ((findAccount (creditFirst (creditFirst b.accounts A (-x)) B x) A).map
      (fun acc => acc.balance)) = some (accA.balance - x)
    rw [findAccount_creditFirst_ne _ A B x hAB, findAccount_creditFirst_self, hA]
    show some (accA.balance + -x) = some (accA.balance - x)
    rw [← sub_eq_add_neg]
  · show ((findAccount (creditFirst (creditFirst b.accounts A (-x)) B x) B).map
      (fun acc => acc.balance)) = some (accB.balance + x)
    rw [findAccount_creditFirst_self, findAccount_creditFirst_ne _ B A (-x) (Ne.symm hAB), hB]
    rfl

/-! ### Claim theorems -/

/-- Claim C1: for every pair of distinct existing accounts `A` and `B` with
balances `a` and `b`, and every transfer amount `x ≤ a`, `transfer_funds`
succeeds (status 200, `success = True`); afterwards `balance(A) = a - x`,
`balance(B) = b + x`, the sum of all balances in the store is unchanged (so in
particular `a + b` is), and a completed `Transaction` record is appended to the
store's transaction log. -/
theorem transfer_success_conserves (b : Bank) (A B : String) (x : ℚ) (tid : Nat)
    (accA accB : Account) (hAB : A ≠ B)
    (hA : findAccount b.accounts A = some accA)
    (hB : findAccount b.accounts B = some accB)
    (hx : x ≤ accA.balance) :
    (transferFunds b A B x tid).resp.statusCode = 200 ∧
    (transferFunds b A B x tid).resp.success = true ∧
    balanceOf (transferFunds b A B x tid).state A = some (accA.balance - x) ∧
    balanceOf (transferFunds b A B x tid).state B = some (accB.balance + x) ∧
    (accA.balance - x) + (accB.balance + x) = accA.balance + accB.balance ∧
    sumBalances (transferFunds b A B x tid).state.accounts = sumBalances b.accounts ∧
    ∃ t : BankTransaction,
      (transferFunds b A B x tid).state.transactions = b.transactions ++ [t] ∧
      t.fromAccount = A ∧ t.toAccount = B ∧ t.amount = x ∧ t.status = "completed" := by
  obtain ⟨h1, h2, h3, h4⟩ := transferFunds_balances b A B x tid accA accB hAB hA hB hx
  refine ⟨h1, h2, h3, h4, by ring, ?_, ?_⟩
  · rw [transferFunds_success_spec b A B x tid accA accB hA hB hx]
    show sumBalances (creditFirst (creditFirst b.accounts A (-x)) B x) = sumBalances b.accounts
    rw [sumBalances_creditFirst, sumBalances_creditFirst]
    · ring
    · rw [hA]; rfl
    · rw [findAccount_creditFirst_ne _ B A (-x) (Ne.symm hAB), hB]; rfl
  · rw [transferFunds_success_spec b A B x tid accA accB hA hB hx]
    exact ⟨_, rfl, rfl, rfl, rfl, rfl⟩

/-- Witness for C1: transferring 100 from ACC001 to ACC002 on a fresh store
succeeds and leaves 4900 / 15100. -/
theorem transfer_success_conserves_witness :
    (transferFunds Bank.init "ACC001" "ACC002" 100 123456).resp.statusCode = 200 ∧
    (transferFunds Bank.init "ACC001" "ACC002" 100 123456).resp.success = true ∧
    balanceOf (transferFunds Bank.init "ACC001" "ACC002" 100 123456).state "ACC001" =
      some 4900 ∧
    balanceOf (transferFunds Bank.init "ACC001" "ACC002" 100 123456).state "ACC002" =
      some 15100 := by
  have h := transfer_success_conserves Bank.init "ACC001" "ACC002" 100 123456
    mockAcc1 mockAcc2 (by decide) rfl rfl (by norm_num [mockAcc1])
  refine ⟨h.1, h.2.1, ?_, ?_⟩
  · rw [h.2.2.1]
    norm_num [mockAcc1]
  · rw [h.2.2.2.1]
    norm_num [mockAcc2]

/-- Claim C2: `transfer_funds` never raises (it is a total function into the
response-and-state record); the three failure cases return a structured
failure — 404 when either account is missing (the account checks run first),
400 when both accounts exist but the amount exceeds the source balance — and
in every failure case the store (all balances and the transaction log) is left
exactly unchanged. -/
theorem transfer_failure_atomic :
    (∀ (b : Bank) (A B : String) (x : ℚ) (tid : Nat),
      findAccount b.accounts A = none →
        transferFunds b A B x tid =
          { resp := { statusCode := 404, data := .err "Source account not found",
                      success := false },
            state := b }) ∧
    (∀ (b : Bank) (A B : String) (x : ℚ) (tid : Nat) (accA : Account),
      findAccount b.accounts A = some accA →
      findAccount b.accounts B = none →
        transferFunds b A B x tid =
          { resp := { statusCode := 404, data := .err "Destination account not found",
                      success := false },
            state := b }) ∧
    (∀ (b : Bank) (A B : String) (x : ℚ) (tid : Nat) (accA accB : Account),
      findAccount b.accounts A = some accA →
      findAccount b.accounts B = some accB →
      accA.balance < x →
        transferFunds b A B x tid =
          { resp := { statusCode := 400, data := .err "Insufficient funds",
                      success := false },
            state := b }) := by
  refine ⟨?_, ?_, ?_⟩
  · intro b A B x tid hA
    simp only [transferFunds, hA]
  · intro b A B x tid accA hA hB
    simp only [transferFunds, hA, hB]
  · intro b A B x tid accA accB hA hB hlt
    simp only [transferFunds, hA, hB]
    rw [if_pos hlt]

/-- Witness for C2: the three failure cases at concrete inputs on a fresh
store — missing source, missing destination, insufficient funds. -/
theorem transfer_failure_atomic_witness :
    transferFunds Bank.init "ACC999" "ACC002" 10 1 =
      { resp := { statusCode := 404, data := .err "Source account not found",
                  success := false },
        state := Bank.init } ∧
    transferFunds Bank.init "ACC001" "ACC999" 10 1 =
      { resp := { statusCode := 404, data := .err "Destination account not found",
                  success := false },
        state := Bank.init } ∧
    transferFunds Bank.init "ACC001" "ACC002" 99999 1 =
      { resp := { statusCode := 400, data := .err "Insufficient funds",
                  success := false },
        state := Bank.init } :=
  ⟨transfer_failure_atomic.1 Bank.init "ACC999" "ACC002" 10 1 rfl,
   transfer_failure_atomic.2.1 Bank.init "ACC001" "ACC999" 10 1 mockAcc1 rfl rfl,
   transfer_failure_atomic.2.2 Bank.init "ACC001" "ACC002" 99999 1 mockAcc1 mockAcc2
     rfl rfl (by norm_num [mockAcc1])⟩

/-- Claim C3: `_generate_mock_test_cases` returns, for every `api_spec`,
exactly three test cases, in order: a happy-path test named
`"<name> Happy Path Test"` with priority high, an error-handling test named
`"<name> Error Handling Test"` with priority medium, and a security test named
`"<name> Security Test"` with priority high, where `<name>` is the spec's
`name` field (default `"Unknown API"`).  The embedded generator is a pure
function, so two invocations on the same spec are definitionally equal — the
final conjunct records this determinism. -/
theorem mock_test_cases_shape (apiSpec : ApiSpec) :
    ∃ c1 c2 c3 : TestCase,
      generateMockTestCases apiSpec = [c1, c2, c3] ∧
      c1.name = apiSpec.name.getD "Unknown API" ++ " Happy Path Test" ∧
      c1.testType = "functional" ∧ c1.priority = "high" ∧
      c2.name = apiSpec.name.getD "Unknown API" ++ " Error Handling Test" ∧
      c2.testType = "functional" ∧ c2.priority = "medium" ∧
      c3.name = apiSpec.name.getD "Unknown API" ++ " Security Test" ∧
      c3.testType = "security" ∧ c3.priority = "high" ∧
      generateMockTestCases apiSpec = generateMockTestCases apiSpec :=
  ⟨_, _, _, rfl, rfl, rfl, rfl, rfl, rfl, rfl, rfl, rfl, rfl, rfl⟩

/-- Counterexample to Claim C5 as stated: a single result with status
`"skipped"` is counted by the report record's `failed_tests` as 0, not 1 —
`failed_tests` does not count every non-`"passed"` result. -/
theorem report_failed_count_counterexample :
    (buildReport [{ testName := "t", testType := "functional", priority := "high",
                    apiEndpoint := none, status := "skipped",
                    message := "Test not implemented" }]).failedTests = 0 ∧
    (([{ testName := "t", testType := "functional", priority := "high",
         apiEndpoint := none, status := "skipped",
         message := "Test not implemented" }] : List TestResultRec).filter
       (fun r => ¬ (r.status = "passed"))).length = 1 := by
  exact ⟨rfl, rfl⟩

/-- Two pointwise-exclusive filters of a list have lengths summing to at most
the list's length. -/
theorem filter_disjoint_length_le {α : Type} (p q : α → Bool) (l : List α)
    (h : ∀ a, p a = true → q a = false) :
    (l.filter p).length + (l.filter q).length ≤ l.length := by
  induction l with
  | nil => simp
  | cons a t ih =>
    cases hp : p a
    · cases hq : q a
      · simp [List.filter_cons, hp, hq]
        omega
      · simp [List.filter_cons, hp, hq]
        omega
    · have hq : q a = false := h a hp
      simp [List.filter_cons, hp, hq]
      omega

/-- Claim C5, amended: in the aggregator's report record, `passed_tests`
counts exactly the results with status `"passed"` and `failed_tests` counts
exactly the results with status `"failed"`; results with any other status
(such as `"skipped"` or `"error"`) are counted in neither bucket, so
`passed_tests + failed_tests ≤ total_tests`. -/
theorem report_counts_amended (allResults : List TestResultRec) :
    (buildReport allResults).totalTests = allResults.length ∧
    (buildReport allResults).passedTests = allResults.countP (fun r => r.status = "passed") ∧
    (buildReport allResults).failedTests = allResults.countP (fun r => r.status = "failed") ∧
    (buildReport allResults).passedTests + (buildReport allResults).failedTests ≤
      (buildReport allResults).totalTests := by
  refine ⟨rfl, ?_, ?_, ?_⟩
  · rw [List.countP_eq_length_filter]
    rfl
  · rw [List.countP_eq_length_filter]
    rfl
  · show (allResults.filter (fun r => r.status = "passed")).length +
        (allResults.filter (fun r => r.status = "failed")).length ≤ allResults.length
    exact filter_disjoint_length_le _ _ allResults
      (fun r hr => by
        have hr' : r.status = "passed" := by simpa using hr
        simp [hr'])

/-- Counterexample to Claim C6 as stated: with one matching transaction in the
log, `get_transaction_history(account, 0)` returns a list of length 1, not the
empty list — the Python slice `lst[-0:]` is the whole list. -/
theorem history_limit_zero_counterexample :
    ((getTransactionHistory
        { accounts := mockAccounts,
          transactions := [{ transactionId := "TXN111111", fromAccount := "ACC001",
                             toAccount := "ACC002", amount := 100, status := "completed" }] }
        "ACC001" 0).data.transactions).length = 1 := rfl

/-- Claim C6, amended: `get_transaction_history(account_id, n)` always returns
a 200 success response whose `total_count` is the number of transactions
touching the account as source or destination (in insertion order), and whose
transaction list is the most recent `n` of them when `n ≥ 1` (so its length is
`min n total_count`); for `n = 0`, the Python slice `lst[-0:]` yields the
whole matching list, not the empty list. -/
theorem history_amended (b : Bank) (accountId : String) (limit : Nat) :
    (getTransactionHistory b accountId limit).statusCode = 200 ∧
    (getTransactionHistory b accountId limit).success = true ∧
    (getTransactionHistory b accountId limit).data.accountId = accountId ∧
    (getTransactionHistory b accountId limit).data.totalCount =
      (matchingTxns b accountId).length ∧
    (getTransactionHistory b accountId limit).data.transactions =
      (if limit = 0 then matchingTxns b accountId
       else (matchingTxns b accountId).drop ((matchingTxns b accountId).length - limit)) ∧
    (1 ≤ limit →
      ((getTransactionHistory b accountId limit).data.transactions).length =
        min limit (matchingTxns b accountId).length) := by
  refine ⟨rfl, rfl, rfl, rfl, rfl, ?_⟩
  intro hlim
  show (pySliceLast limit (matchingTxns b accountId)).length = _
  unfold pySliceLast
  rw [if_neg (by omega : ¬ limit = 0), List.length_drop]
  omega

/-- Witness for C6 (amended): a store whose log holds one matching and one
non-matching transaction; the history with limit 1 returns exactly one
transaction. -/
theorem history_amended_witness :
    (1 : Nat) ≤ 1 ∧
    ((getTransactionHistory
        { accounts := mockAccounts,
          transactions := [{ transactionId := "TXN111111", fromAccount := "ACC001",
                             toAccount := "ACC002", amount := 100, status := "completed" },
                           { transactionId := "TXN222222", fromAccount := "ACC007",
                             toAccount := "ACC008", amount := 50, status := "completed" }] }
        "ACC001" 1).data.transactions).length = 1 := by
  refine ⟨by omega, ?_⟩
  have h := (history_amended
    { accounts := mockAccounts,
      transactions := [{ transactionId := "TXN111111", fromAccount := "ACC001",
                         toAccount := "ACC002", amount := 100, status := "completed" },
                       { transactionId := "TXN222222", fromAccount := "ACC007",
                         toAccount := "ACC008", amount := 50, status := "completed" }] }
    "ACC001" 1).2.2.2.2.2 (by omega)
  rw [h]
  rfl

/-- The accumulation loop of `_find_relevant_knowledge` computes the filter of
the knowledge base by the loop-body condition, appended after the accumulator. -/
theorem findRelevantLoop_eq_filter (queryLower : String) (docs acc : List String) :
    findRelevantLoop queryLower acc docs = acc ++ docs.filter (relevantDoc queryLower) := by
  induction docs generalizing acc with
  | nil => simp [findRelevantLoop]
  | cons d rest ih =>
    by_cases h : relevantDoc queryLower d = true
    · simp [findRelevantLoop, h, ih, List.filter_cons]
    · simp only [Bool.not_eq_true] at h
      simp [findRelevantLoop, h, ih, List.filter_cons]

set_option maxRecDepth 100000 in
/-- Claim C7: for every query string, `_find_relevant_knowledge` over the
fixed six-document knowledge base returns exactly the documents that (1)
contain one of the keywords pci/aml/gdpr/transaction/compliance/security
case-insensitively and (2) contain some whitespace-delimited word of the
lowercased query (in list order); when no document passes both filters it
returns the first two documents.  The final conjuncts instantiate both
branches: a query sharing a word only with the AML document, and a query
matching nothing. -/
theorem find_relevant_filter (query : String) :
    (findRelevantKnowledge financialDomainDocs query =
      (if financialDomainDocs.filter (relevantDoc (strLower query)) = []
       then financialDomainDocs.take 2
       else financialDomainDocs.filter (relevantDoc (strLower query)))) ∧
    findRelevantKnowledge financialDomainDocs "sanctions" =
      [financialDomainDocs[1]] ∧
    findRelevantKnowledge financialDomainDocs "qqqq" = financialDomainDocs.take 2 := by
  refine ⟨?_, by decide, by decide⟩
  unfold findRelevantKnowledge
  rw [findRelevantLoop_eq_filter]
  simp only [List.nil_append, List.isEmpty_iff]

/-- Claim C8: the fallback analysis returns `total_tests` = number of result
records, `passed_tests` = number with status `"passed"`, `failed_tests` =
total − passed, `overall_health` `"Good"` iff passed > failed, the success
rate formatted to one decimal (or `"0%"` when there are no results), and the
fixed three recommendations; on 7 passed plus 3 failed records it yields
10/7/3, `"Good"`, `"70.0%"`. -/
theorem mock_analysis_spec :
    (∀ results : List ResultDict,
      (generateMockAnalysis results).totalTests = results.length ∧
      (generateMockAnalysis results).passedTests =
        results.countP (fun r => r.status = some "passed") ∧
      (generateMockAnalysis results).failedTests =
        results.length - results.countP (fun r => r.status = some "passed") ∧
      (generateMockAnalysis results).overallHealth =
        (if (generateMockAnalysis results).passedTests > (generateMockAnalysis results).failedTests
         then "Good" else "Needs Attention") ∧
      (generateMockAnalysis results).successRate =
        (if results.length > 0
         then fmtPct (generateMockAnalysis results).passedTests results.length
         else "0%") ∧
      (generateMockAnalysis results).recommendations =
        [ "Review failed tests for patterns",
          "Add more edge case testing",
          "Consider load testing for performance validation" ]) ∧
    generateMockAnalysis
        (List.replicate 7 { status := some "passed" } ++
         List.replicate 3 { status := some "failed" }) =
      { overallHealth := "Good", successRate := "70.0%", totalTests := 10,
        passedTests := 7, failedTests := 3,
        recommendations :=
          [ "Review failed tests for patterns",
            "Add more edge case testing",
            "Consider load testing for performance validation" ] } := by
  refine ⟨?_, by decide⟩
  intro results
  refine ⟨rfl, ?_, ?_, rfl, rfl, rfl⟩
  · rw [List.countP_eq_length_filter]
    rfl
  · rw [List.countP_eq_length_filter]
    rfl

/-- Counterexample to Claim C9 as stated: the returned rate for EUR→GBP is
`round(0.73/0.85, 4) = 0.8588`, which is not equal to `table[GBP]/table[EUR]
= 73/85` — the code rounds the cross-rate to 4 decimal places before
returning it. -/
theorem exchange_rate_rounding_counterexample :
    (getExchangeRate "EUR" "GBP").data =
      RatePayload.rate "EUR" "GBP" (2147/2500) ∧
    (2147/2500 : ℚ) ≠ ((73:ℚ)/100) / ((85:ℚ)/100) := by
  constructor
  · show RatePayload.rate "EUR" "GBP" (pyRound4 ((73:ℚ)/100 / ((85:ℚ)/100))) =
      RatePayload.rate "EUR" "GBP" (2147/2500)
    have : pyRound4 ((73:ℚ)/100 / ((85:ℚ)/100)) = 2147/2500 := by
      unfold pyRound4 roundHalfEven
      norm_num
    rw [this]
  · norm_num

/-- Claim C9, amended: when both currencies are in the fixed rate table,
`get_exchange_rate` returns a 200 success whose rate is
`round(table[to]/table[from], 4)` — the cross rate rounded to 4 decimal
places (for USD→EUR that is exactly 0.85, and for USD→USD exactly 1.0); when
either currency is absent it returns a 400 failure with `success=False`. -/
theorem exchange_rate_amended :
    (∀ (fromCurrency toCurrency : String) (fromRate toRate : ℚ),
      lookupRate fromCurrency = some fromRate → lookupRate toCurrency = some toRate →
        getExchangeRate fromCurrency toCurrency =
          { statusCode := 200,
            data := .rate fromCurrency toCurrency (pyRound4 (toRate / fromRate)),
            success := true }) ∧
    (∀ fromCurrency toCurrency : String,
      lookupRate fromCurrency = none ∨ lookupRate toCurrency = none →
        getExchangeRate fromCurrency toCurrency =
          { statusCode := 400, data := .err "Unsupported currency", success := false }) ∧
    (getExchangeRate "USD" "EUR").data = .rate "USD" "EUR" (85/100) ∧
    (getExchangeRate "USD" "USD").data = .rate "USD" "USD" 1 := by
  refine ⟨?_, ?_, ?_, ?_⟩
  · intro fromCurrency toCurrency fromRate toRate hf ht
    simp only [getExchangeRate, hf, ht]
  · intro fromCurrency toCurrency h
    rcases h with h | h
    · simp only [getExchangeRate, h]
    · unfold getExchangeRate
      rw [h]
      cases lookupRate fromCurrency <;> rfl
  · show RatePayload.rate "USD" "EUR" (pyRound4 ((85:ℚ)/100 / 1)) = _
    have : pyRound4 ((85:ℚ)/100 / 1) = 85/100 := by
      unfold pyRound4 roundHalfEven
      norm_num
    rw [this]
  · show RatePayload.rate "USD" "USD" (pyRound4 ((1:ℚ) / 1)) = _
    have : pyRound4 ((1:ℚ) / 1) = 1 := by
      unfold pyRound4 roundHalfEven
      norm_num
    rw [this]

/-- Witness for C9 (amended): the success branch at USD→EUR and the failure
branch at an unsupported currency. -/
theorem exchange_rate_amended_witness :
    getExchangeRate "USD" "EUR" =
      { statusCode := 200, data := .rate "USD" "EUR" (pyRound4 ((85/100 : ℚ) / 1)),
        success := true } ∧
    getExchangeRate "XYZ" "USD" =
      { statusCode := 400, data := .err "Unsupported currency", success := false } :=
  ⟨exchange_rate_amended.1 "USD" "EUR" 1 (85/100) rfl rfl,
   exchange_rate_amended.2.1 "XYZ" "USD" (Or.inl rfl)⟩

/-- A store state reachable from a fresh `MockBankingAPI()` by one call:
transferring −20000 from ACC001 to ACC002 succeeds (the balance check
`5000 < -20000` is false) and drives ACC002's balance to −5000. -/
def overdrawnState : Bank :=
  (transferFunds Bank.init "ACC001" "ACC002" (-20000) 111111).state

/-- Counterexample to Claim C10 as stated: in the reachable store
`overdrawnState`, ACC002 has balance −5000, and the transfer of the amount
−100 (≤ 0) from ACC002 to ACC001 — both distinct existing accounts — does
not succeed: the balance check `-5000 < -100` fires, giving a 400 failure,
not the claimed 200 success. -/
theorem no_positivity_check_counterexample :
    balanceOf overdrawnState "ACC002" = some (-5000) ∧
    ((-100 : ℚ) ≤ 0) ∧
    (transferFunds overdrawnState "ACC002" "ACC001" (-100) 222222).resp.statusCode = 400 ∧
    (transferFunds overdrawnState "ACC002" "ACC001" (-100) 222222).resp.success = false ∧
    (transferFunds overdrawnState "ACC002" "ACC001" (-100) 222222).state = overdrawnState := by
  have hs := transferFunds_success_spec Bank.init "ACC001" "ACC002" (-20000) 111111
    mockAcc1 mockAcc2 rfl rfl (by norm_num [mockAcc1])
  have hacc2 : findAccount overdrawnState.accounts "ACC002" =
      some { mockAcc2 with balance := mockAcc2.balance + (-20000) } := by
    show findAccount (transferFunds Bank.init "ACC001" "ACC002" (-20000) 111111).state.accounts
      "ACC002" = _
    rw [hs]
    show findAccount
      (creditFirst (creditFirst Bank.init.accounts "ACC001" (-(-20000))) "ACC002" (-20000))
      "ACC002" = _
    rw [findAccount_creditFirst_self,
        findAccount_creditFirst_ne _ "ACC002" "ACC001" (-(-20000)) (by decide)]
    rfl
  have hacc1 : findAccount overdrawnState.accounts "ACC001" =
      some { mockAcc1 with balance := mockAcc1.balance + (-(-20000)) } := by
    show findAccount (transferFunds Bank.init "ACC001" "ACC002" (-20000) 111111).state.accounts
      "ACC001" = _
    rw [hs]
    show findAccount
      (creditFirst (creditFirst Bank.init.accounts "ACC001" (-(-20000))) "ACC002" (-20000))
      "ACC001" = _
    rw [findAccount_creditFirst_ne _ "ACC001" "ACC002" (-20000) (by decide),
        findAccount_creditFirst_self]
    rfl
  have hfail : transferFunds overdrawnState "ACC002" "ACC001" (-100) 222222 =
      { resp := { statusCode := 400, data := .err "Insufficient funds", success := false },
        state := overdrawnState } := by
    simp only [transferFunds, hacc2, hacc1]
    rw [if_pos (by norm_num [mockAcc2] : mockAcc2.balance + -20000 < (-100 : ℚ))]
  refine ⟨?_, by norm_num, ?_, ?_, ?_⟩
  · show (findAccount overdrawnState.accounts "ACC002").map (fun acc => acc.balance) =
      some (-5000)
    rw [hacc2]
    show some (mockAcc2.balance + (-20000)) = some (-5000)
    norm_num [mockAcc2]
  · rw [hfail]
  · rw [hfail]
  · rw [hfail]

/-- Claim C10, amended: `transfer_funds` performs no positivity check on the
amount: for distinct existing accounts, any amount `x ≤ 0` that also satisfies
the one check the code does make, `x ≤ balance(A)` (automatic whenever
`balance(A) ≥ 0`), succeeds with status 200, decrementing the source by `x`
and incrementing the destination by `x` — so a negative amount moves funds
from the destination to the source (the destination's balance does not
increase). -/
theorem no_positivity_check_amended (b : Bank) (A B : String) (x : ℚ) (tid : Nat)
    (accA accB : Account) (hAB : A ≠ B)
    (hA : findAccount b.accounts A = some accA)
    (hB : findAccount b.accounts B = some accB)
    (hx0 : x ≤ 0) (hx : x ≤ accA.balance) :
    (transferFunds b A B x tid).resp.statusCode = 200 ∧
    (transferFunds b A B x tid).resp.success = true ∧
    balanceOf (transferFunds b A B x tid).state A = some (accA.balance - x) ∧
    balanceOf (transferFunds b A B x tid).state B = some (accB.balance + x) ∧
    accA.balance - x ≥ accA.balance ∧ accB.balance + x ≤ accB.balance := by
  obtain ⟨h1, h2, h3, h4⟩ := transferFunds_balances b A B x tid accA accB hAB hA hB hx
  exact ⟨h1, h2, h3, h4, by linarith, by linarith⟩

/-- Witness for C10 (amended): transferring −50 from ACC001 to ACC002 on a
fresh store succeeds and moves 50 from ACC002 to ACC001. -/
theorem no_positivity_check_amended_witness :
    (transferFunds Bank.init "ACC001" "ACC002" (-50) 7).resp.statusCode = 200 ∧
    balanceOf (transferFunds Bank.init "ACC001" "ACC002" (-50) 7).state "ACC001" =
      some 5050 ∧
    balanceOf (transferFunds Bank.init "ACC001" "ACC002" (-50) 7).state "ACC002" =
      some 14950 := by
  have h := no_positivity_check_amended Bank.init "ACC001" "ACC002" (-50) 7
    mockAcc1 mockAcc2 (by decide) rfl rfl (by norm_num) (by norm_num [mockAcc1])
  refine ⟨h.1, ?_, ?_⟩
  · rw [h.2.2.1]
    norm_num [mockAcc1]
  · rw [h.2.2.2.1]
    norm_num [mockAcc2]

/-- Claim C4: executing a test case never propagates an exception —
`executeTestCase` is a total function equal to the catch boundary applied to
the dispatch body (first conjunct), and the boundary converts any exception
into a result record with status `"error"` carrying the exception's message
(second conjunct).  A test case with `test_data = None` whose name contains
`"transfer"` under a banking spec reaches `_test_banking_api` with the
default arguments ACC001/ACC002/100.0 regardless of the store state (third
conjunct) and, on the fresh store the executor constructs, produces a plain
`"passed"` record rather than throwing (fourth conjunct). -/
theorem execute_never_raises :
    (∀ (net : NetOutcome) (rngTxnId : Nat) (tc : TestCase) (spec : ApiSpec),
      executeTestCase net rngTxnId tc spec =
        catchBoundary tc (dispatchTestCase net rngTxnId tc spec)) ∧
    (∀ (tc : TestCase) (e : String),
      catchBoundary tc (.error e) =
        { testName := tc.name, testType := tc.testType, priority := tc.priority,
          apiEndpoint := none, status := "error", message := e }) ∧
    (∀ (b : Bank) (rngTxnId : Nat),
      testBankingApi b transferTcNone rngTxnId =
        { status := if (transferFunds b "ACC001" "ACC002" 100 rngTxnId).resp.success
                    then "passed" else "failed",
          message := "Transfer API response: " ++
            toString (transferFunds b "ACC001" "ACC002" 100 rngTxnId).resp.statusCode }) ∧
    (∀ (net : NetOutcome) (rngTxnId : Nat),
      executeTestCase net rngTxnId transferTcNone bankingSpec =
        { testName := transferTcNone.name, testType := "functional", priority := "high",
          apiEndpoint := none, status := "passed",
          message := "Transfer API response: 200" }) := by
  refine ⟨fun _ _ _ _ => rfl, fun _ _ => rfl, fun _ _ => rfl, ?_⟩
  intro net rngTxnId
  have hd : dispatchTestCase net rngTxnId transferTcNone bankingSpec =
      .ok (testBankingApi Bank.init transferTcNone rngTxnId) := rfl
  have ht := transferFunds_success_spec Bank.init "ACC001" "ACC002" 100 rngTxnId
    mockAcc1 mockAcc2 rfl rfl (by norm_num [mockAcc1])
  have hsucc : (transferFunds Bank.init "ACC001" "ACC002" 100 rngTxnId).resp.success = true := by
    rw [ht]
  have hcode : (transferFunds Bank.init "ACC001" "ACC002" 100 rngTxnId).resp.statusCode = 200 := by
    rw [ht]
  have hb : testBankingApi Bank.init transferTcNone rngTxnId =
      { status := "passed", message := "Transfer API response: 200" } := by
    have h3 : testBankingApi Bank.init transferTcNone rngTxnId =
        { status := if (transferFunds Bank.init "ACC001" "ACC002" 100 rngTxnId).resp.success
                    then "passed" else "failed",
          message := "Transfer API response: " ++
            toString (transferFunds Bank.init "ACC001" "ACC002" 100 rngTxnId).resp.statusCode } :=
      rfl
    rw [h3, hsucc, hcode]
    decide
  show catchBoundary transferTcNone (dispatchTestCase net rngTxnId transferTcNone bankingSpec) = _
  rw [hd, hb]
  rfl

end Fintech
